import Mathlib

/-!
Shallow embedding of `alpha_entry.py` (retry-resilient bracket-order
placement pipeline) and verification of its specification claims.

Modelling conventions:
- Python `decimal.Decimal` values are exact decimals; they are embedded as
  rationals (`ℚ`).
- Python `Decimal.__floordiv__` is the divide-integer operation, which
  rounds the quotient toward zero (not toward minus infinity); `decDivInt`
  reproduces this.
- Python exceptions are embedded as `Except` errors; `decimal` division by
  zero raises, which is modelled by explicit zero tests where the source
  divides.
- Remote calls are embedded by their returned values (an `Env` record for
  the pipeline's reads) or, for the retry wrapper, by a function from the
  attempt index to that attempt's outcome.
-/

/-- Errors the embedded fragment of the script can raise. -/
inductive PyErr where
  | divisionByZero
  | invalidDirection
  deriving Repr, DecidableEq

/-- Divide-integer of Python `Decimal`: the integer quotient of `v / g`
rounded toward zero. -/
def decDivInt (v g : ℚ) : ℤ :=
  if 0 ≤ v / g then ⌊v / g⌋ else ⌈v / g⌉

/-- `(v // g) * g` on Python `Decimal`s: flooring `v` to a multiple of `g`
(for `v/g ≥ 0` this is the largest multiple of `g` not exceeding `v`). -/
def quantizeDown (v g : ℚ) : ℚ :=
  (decDivInt v g : ℚ) * g

/-- `calculate_position_size` (alpha_entry.py lines 43-49).
`account_data['data']['availableBalance']` is passed in already extracted.
Decimal division by zero (`current_price = 0`, or `step_size = 0` in the
`//` step) raises in Python and is an error here. -/
def calculate_position_size (availableBalance leverage current_price step_size : ℚ) :
    Except PyErr ℚ :=
  if current_price = 0 then .error .divisionByZero
  else if step_size = 0 then .error .divisionByZero
  else
    let real_leverage := leverage * 100
    let position_size := (availableBalance * real_leverage) / current_price
    .ok (quantizeDown position_size step_size)

/-! ### Retry wrapper (`api_call_with_retry`, alpha_entry.py lines 18-30) -/

/-- Outcome of one invocation of the wrapped `api_func`:
`ok` a response, `none_` a `None` response (raises
`ValueError("Empty response received")`, caught as transient),
`transient` a `requests.exceptions.RequestException` or `ValueError`
raised by the call (caught), `fatal` any other exception (not caught,
propagates out of the wrapper). -/
inductive CallOutcome (α : Type) where
  | ok (a : α)
  | none_
  | transient (cause : String)
  | fatal (cause : String)
  deriving Repr, DecidableEq

/-- True exactly on the outcomes the wrapper's `except` clause catches. -/
def CallOutcome.caught {α : Type} : CallOutcome α → Bool
  | .ok _ => false
  | .none_ => true
  | .transient _ => true
  | .fatal _ => false

/-- Final outcome of the wrapper: the returned response, a propagated
uncaught exception, or the final
`Exception(f"Failed to execute API call after {max_retries} attempts")` —
whose message depends only on `max_retries`, so the constructor carries
no cause. -/
inductive RetryOutcome (α : Type) where
  | ok (a : α)
  | fatal (cause : String)
  | exhausted
  deriving Repr, DecidableEq

/-- Observable trace of one wrapper run: the `logging.warning` events
(attempt number as logged, i.e. `attempt + 1`, and the caught cause's
message), the `time.sleep` durations in order, and the final outcome. -/
structure RetryResult (α : Type) where
  warnings : List (Nat × String)
  sleeps : List ℚ
  outcome : RetryOutcome α
  deriving Repr, DecidableEq

/-- The `for attempt in range(max_retries)` loop body, recursing over the
remaining attempt indices. -/
def retryGo {α : Type} (f : Nat → CallOutcome α) (backoff_factor : ℚ) :
    List Nat → RetryResult α
  | [] => { warnings := [], sleeps := [], outcome := .exhausted }
  | attempt :: rest =>
    match f attempt with
    | .ok a => { warnings := [], sleeps := [], outcome := .ok a }
    | .fatal c => { warnings := [], sleeps := [], outcome := .fatal c }
    | .none_ =>
      let r := retryGo f backoff_factor rest
      { warnings := (attempt + 1, "Empty response received") :: r.warnings,
        sleeps := backoff_factor * 2 ^ attempt :: r.sleeps,
        outcome := r.outcome }
    | .transient c =>
      let r := retryGo f backoff_factor rest
      { warnings := (attempt + 1, c) :: r.warnings,
        sleeps := backoff_factor * 2 ^ attempt :: r.sleeps,
        outcome := r.outcome }

/-- `api_call_with_retry` with its fixed `max_retries = 5` and
`backoff_factor = 0.5`; `f` gives the outcome of the wrapped call at each
attempt index. -/
def api_call_with_retry {α : Type} (f : Nat → CallOutcome α) : RetryResult α :=
  retryGo f (1 / 2) (List.range 5)

/-- An attempt outcome the wrapper classifies as transient and retries. -/
def CallOutcome.IsTransient {α : Type} (o : CallOutcome α) : Prop :=
  o = .none_ ∨ ∃ c, o = .transient c

/-! ### Order-placement pipeline (`place_optimal_limit_order`, lines 71-129) -/

/-- Python `str.lower()` restricted to the script's ASCII strings:
`Char.toLower` mapped over the characters. -/
def pyLower (s : String) : String :=
  ⟨s.data.map Char.toLower⟩

/-- Python `str.upper()` restricted to the script's ASCII strings. -/
def pyUpper (s : String) : String :=
  ⟨s.data.map Char.toUpper⟩

/-- Values returned by the pipeline's successful remote reads:
`get_account_v3` (bound to `accountData`, an opaque response),
`get_account_balance_v3`'s `data.availableBalance`, `configs_v3`'s
`tickSize` and `stepSize` for the symbol, and `ticker_v3`'s `lastPrice`. -/
structure Env where
  accountV3 : String
  availableBalance : ℚ
  tickSize : ℚ
  stepSize : ℚ
  lastPrice : ℚ
  deriving Repr, DecidableEq

/-- One `create_order_v3` request as built by the pipeline (the fields the
script passes; `size` and prices are sent as `str(...)` of exact decimals,
kept here as the decimal values). -/
structure OrderRequest where
  symbol : String
  side : String
  type : String
  size : ℚ
  price : ℚ
  timeInForce : String
  reduceOnly : Bool
  isPositionTpsl : Bool
  triggerPrice : Option ℚ
  triggerPriceType : Option String
  deriving Repr, DecidableEq

/-- `place_optimal_limit_order` (lines 71-129), for a run whose remote
reads succeed with the values in `env` and whose order submissions are
accepted: returns the list of submitted `create_order_v3` requests in
submission order, or the first error raised. `accountData` (line 72) is
bound and never used, exactly as in the source. -/
def place_optimal_limit_order (env : Env) (symbol direction : String)
    (leverage tp_percent sl_percent : ℚ) : Except PyErr (List OrderRequest) :=
  let _accountData := env.accountV3
  let account_data := env.availableBalance
  let tick_size := env.tickSize
  let step_size := env.stepSize
  let current_price := env.lastPrice
  match calculate_position_size account_data leverage current_price step_size with
  | .error e => .error e
  | .ok position_size =>
    let prices : Except PyErr (ℚ × ℚ) :=
      if pyLower direction = "buy" then
        .ok (current_price * (1 + tp_percent / 100),
             current_price * (1 - sl_percent / 100))
      else if pyLower direction = "sell" then
        .ok (current_price * (1 - tp_percent / 100),
             current_price * (1 + sl_percent / 100))
      else .error .invalidDirection
    match prices with
    | .error e => .error e
    | .ok (tp_raw, sl_raw) =>
      if tick_size = 0 then .error .divisionByZero
      else
        let tp_price := quantizeDown tp_raw tick_size
        let sl_price := quantizeDown sl_raw tick_size
        let initial_order : OrderRequest :=
          { symbol := symbol, side := pyUpper direction, type := "MARKET",
            size := position_size, price := current_price,
            timeInForce := "GOOD_TIL_CANCEL", reduceOnly := false,
            isPositionTpsl := false, triggerPrice := none,
            triggerPriceType := none }
        let stop_order : OrderRequest :=
          { symbol := symbol,
            side := if pyLower direction = "buy" then "SELL" else "BUY",
            type := "STOP_MARKET", size := position_size, price := sl_price,
            timeInForce := "GOOD_TIL_CANCEL", reduceOnly := true,
            isPositionTpsl := true, triggerPrice := some sl_price,
            triggerPriceType := some "INDEX" }
        let tp_order : OrderRequest :=
          { symbol := symbol,
            side := if pyLower direction = "buy" then "SELL" else "BUY",
            type := "TAKE_PROFIT_MARKET", size := position_size,
            price := tp_price, timeInForce := "GOOD_TIL_CANCEL",
            reduceOnly := true, isPositionTpsl := true,
            triggerPrice := some tp_price, triggerPriceType := some "INDEX" }
        .ok [initial_order, stop_order, tp_order]

/-- The `__main__` block (lines 131-147): wrong argument count prints
usage and exits with status 1 before any network activity; otherwise the
pipeline runs inside `try/except Exception`, whose handler calls
`logging.error` and falls through, so the process ends with exit status 0.
Returns `(exit status, whether an error was logged)`. -/
def mainRun (env : Env) (argc : Nat) (symbol direction : String)
    (leverage tp_percent sl_percent : ℚ) : Nat × Bool :=
  if argc ≠ 6 then (1, false)
  else
    match place_optimal_limit_order env symbol direction leverage tp_percent sl_percent with
    | .ok _ => (0, false)
    | .error _ => (0, true)

/-! ### Helper lemmas -/

lemma ceil_eq_neg_floor_neg (a : ℚ) : ⌈a⌉ = -⌊-a⌋ := by
  rw [Int.floor_neg]; simp

lemma quantizeDown_eq_floor (v g : ℚ) (h : 0 ≤ v / g) :
    quantizeDown v g = (⌊v / g⌋ : ℚ) * g := by
  simp [quantizeDown, decDivInt, h]

lemma quantizeDown_le (v g : ℚ) (hv : 0 ≤ v) (hg : 0 < g) :
    quantizeDown v g ≤ v := by
  have hq : 0 ≤ v / g := div_nonneg hv hg.le
  rw [quantizeDown_eq_floor v g hq]
  calc (⌊v / g⌋ : ℚ) * g ≤ (v / g) * g :=
        mul_le_mul_of_nonneg_right (Int.floor_le _) hg.le
    _ = v := div_mul_cancel₀ v hg.ne'

lemma quantizeDown_isMultiple (v g : ℚ) :
    ∃ n : ℤ, quantizeDown v g = (n : ℚ) * g :=
  ⟨decDivInt v g, rfl⟩

lemma lt_quantizeDown_add (v g : ℚ) (hv : 0 ≤ v) (hg : 0 < g) :
    v < quantizeDown v g + g := by
  have hq : 0 ≤ v / g := div_nonneg hv hg.le
  rw [quantizeDown_eq_floor v g hq]
  have h1 : v / g < ⌊v / g⌋ + 1 := Int.lt_floor_add_one _
  have h2 : (v / g) * g < ((⌊v / g⌋ : ℚ) + 1) * g :=
    mul_lt_mul_of_pos_right h1 hg
  have h3 : (v / g) * g = v := div_mul_cancel₀ v hg.ne'
  nlinarith [h2, h3]

lemma quantizeDown_eq_zero (v g : ℚ) (hv : 0 ≤ v) (hg : 0 < g) (hlt : v < g) :
    quantizeDown v g = 0 := by
  have hq : 0 ≤ v / g := div_nonneg hv hg.le
  have hlt1 : v / g < 1 := (div_lt_one hg).mpr hlt
  rw [quantizeDown_eq_floor v g hq]
  have : ⌊v / g⌋ = 0 := by
    rw [Int.floor_eq_zero_iff]
    exact ⟨hq, hlt1⟩
  simp [this]

lemma quantizeDown_nonneg (v g : ℚ) (hv : 0 ≤ v) (hg : 0 ≤ g) :
    0 ≤ quantizeDown v g := by
  rcases eq_or_lt_of_le hg with h | h
  · simp [quantizeDown, ← h]
  · have hq : 0 ≤ v / g := div_nonneg hv hg
    rw [quantizeDown_eq_floor v g hq]
    have : (0 : ℚ) ≤ (⌊v / g⌋ : ℚ) := by
      exact_mod_cast Int.floor_nonneg.mpr hq
    exact mul_nonneg this hg

lemma quantizeDown_lt_of_lt (v g c : ℚ) (hg : 0 < g) (hc : 0 < c) (hvc : v < c) :
    quantizeDown v g < c := by
  rcases le_or_lt 0 v with hv | hv
  · exact lt_of_le_of_lt (quantizeDown_le v g hv hg) hvc
  · have hq : ¬ 0 ≤ v / g := by
      rw [not_le]
      exact div_neg_of_neg_of_pos hv hg
    have hvg : v / g ≤ 0 := le_of_lt (by rw [not_le] at hq; exact hq)
    have hceil : ⌈v / g⌉ ≤ 0 := Int.ceil_le.mpr (by exact_mod_cast hvg)
    have : quantizeDown v g ≤ 0 := by
      rw [quantizeDown, decDivInt, if_neg hq]
      have : ((⌈v / g⌉ : ℤ) : ℚ) ≤ 0 := by exact_mod_cast hceil
      exact mul_nonpos_of_nonpos_of_nonneg this hg.le
    exact lt_of_le_of_lt this hc

lemma sub_lt_quantizeDown (v g : ℚ) (hv : 0 ≤ v) (hg : 0 < g) :
    v - g < quantizeDown v g := by
  have := lt_quantizeDown_add v g hv hg
  linarith

lemma retryGo_all_transient {α : Type} (f : Nat → CallOutcome α) (b : ℚ)
    (l : List Nat) (h : ∀ i ∈ l, (f i).IsTransient) :
    (retryGo f b l).outcome = .exhausted ∧
    (retryGo f b l).warnings.length = l.length ∧
    (retryGo f b l).sleeps = l.map (fun i => b * 2 ^ i) := by
  induction l with
  | nil => exact ⟨rfl, rfl, rfl⟩
  | cons a t ih =>
    have ha := h a (List.mem_cons_self a t)
    have iht := ih (fun i hi => h i (List.mem_cons_of_mem a hi))
    rcases ha with ha | ⟨c, ha⟩ <;>
      simp [retryGo, ha, iht.1, iht.2.1, iht.2.2]

lemma retryGo_succeeds {α : Type} (f : Nat → CallOutcome α) (b : ℚ)
    (l1 l2 : List Nat) (k : Nat) (a : α)
    (h1 : ∀ i ∈ l1, (f i).IsTransient) (h2 : f k = .ok a) :
    (retryGo f b (l1 ++ k :: l2)).outcome = .ok a ∧
    (retryGo f b (l1 ++ k :: l2)).warnings.length = l1.length := by
  induction l1 with
  | nil => simp [retryGo, h2]
  | cons x t ih =>
    have hx := h1 x (List.mem_cons_self x t)
    have iht := ih (fun i hi => h1 i (List.mem_cons_of_mem x hi))
    rcases hx with hx | ⟨c, hx⟩ <;>
      simp [retryGo, hx, iht.1, iht.2]

lemma range_five_split (k : Nat) (hk : k < 5) :
    List.range 5 = List.range k ++ k :: List.drop (k + 1) (List.range 5) := by
  interval_cases k <;> decide

/-! ### Claims -/

/-- C2: for every `v ≥ 0` and `g > 0`, the quantize-down operation
`(v // g) * g` returns the largest multiple of `g` not exceeding `v`:
the result is `≤ v`, is a multiple of `g`, satisfies `result + g > v`,
and is `0` whenever `v < g`. -/
theorem C2_quantizeDown_largest_multiple (v g : ℚ) (hv : 0 ≤ v) (hg : 0 < g) :
    quantizeDown v g ≤ v ∧
    (∃ n : ℤ, quantizeDown v g = (n : ℚ) * g) ∧
    v < quantizeDown v g + g ∧
    (v < g → quantizeDown v g = 0) :=
  ⟨quantizeDown_le v g hv hg, quantizeDown_isMultiple v g,
   lt_quantizeDown_add v g hv hg, quantizeDown_eq_zero v g hv hg⟩

/-- Witness for C2 at `v = 7`, `g = 2` (so `quantizeDown 7 2 = 6`). -/
theorem C2_quantizeDown_witness :
    quantizeDown 7 2 ≤ 7 ∧
    (∃ n : ℤ, quantizeDown 7 2 = (n : ℚ) * 2) ∧
    (7 : ℚ) < quantizeDown 7 2 + 2 ∧
    ((7 : ℚ) < 2 → quantizeDown 7 2 = 0) :=
  C2_quantizeDown_largest_multiple 7 2 (by norm_num) (by norm_num)

/-- C3: for nonnegative margin and positive leverage, price and step, the
position-sizing operation returns
`quantizeDown (availableMargin * (leverage * 100) / currentPrice, stepSize)`
in exact arithmetic; the result is a multiple of `stepSize` and `≥ 0`; the
scenario `availableMargin = 1000, leverage = 10, currentPrice = 50000,
stepSize = 0.001` gives raw size `20` and quantized size `20`. -/
theorem C3_position_size_spec :
    (∀ availableMargin leverage currentPrice stepSize : ℚ,
      0 ≤ availableMargin → 0 < leverage → 0 < currentPrice → 0 < stepSize →
      calculate_position_size availableMargin leverage currentPrice stepSize =
        .ok (quantizeDown (availableMargin * (leverage * 100) / currentPrice) stepSize) ∧
      (∃ n : ℤ, quantizeDown (availableMargin * (leverage * 100) / currentPrice) stepSize
          = (n : ℚ) * stepSize) ∧
      0 ≤ quantizeDown (availableMargin * (leverage * 100) / currentPrice) stepSize) ∧
    (1000 * ((10 : ℚ) * 100)) / 50000 = 20 ∧
    calculate_position_size 1000 10 50000 (1 / 1000) = .ok 20 := by
  refine ⟨?_, by norm_num, ?_⟩
  · intro m lev cp st hm hlev hcp hst
    have hlev100 : (0 : ℚ) ≤ lev * 100 := by nlinarith
    have hraw : 0 ≤ m * (lev * 100) / cp := div_nonneg (mul_nonneg hm hlev100) hcp.le
    exact ⟨by simp [calculate_position_size, hcp.ne', hst.ne'],
      quantizeDown_isMultiple _ _, quantizeDown_nonneg _ _ hraw hst.le⟩
  · norm_num [calculate_position_size, quantizeDown, decDivInt]

/-- Witness for C3 at the spec's scenario inputs. -/
theorem C3_position_size_witness :
    calculate_position_size 1000 10 50000 (1 / 1000) =
      .ok (quantizeDown (1000 * ((10 : ℚ) * 100) / 50000) (1 / 1000)) ∧
    0 ≤ quantizeDown (1000 * ((10 : ℚ) * 100) / 50000) (1 / 1000) := by
  have h := C3_position_size_spec.1 1000 10 50000 (1 / 1000)
    (by norm_num) (by norm_num) (by norm_num) (by norm_num)
  exact ⟨h.1, h.2.2⟩

/-- C5 counterexample: the position-sizing operation does not fail on
non-positive leverage (it returns the size `-2` for leverage `-1`) nor on
negative current price (it returns `-20`), so no `InvalidLeverage` or
`InvalidPrice` failure exists in the code. -/
theorem C5_nonpositive_inputs_accepted :
    calculate_position_size 1000 (-1) 50000 (1 / 1000) = .ok (-2) ∧
    calculate_position_size 1000 10 (-50000) (1 / 1000) = .ok (-20) := by
  constructor <;>
    norm_num [calculate_position_size, quantizeDown, decDivInt, ceil_eq_neg_floor_neg]

/-- C5 amended: the position-sizing operation validates neither leverage
nor price sign: for any leverage (non-positive included) and any nonzero
`currentPrice` and `stepSize` it succeeds with the quantized raw size, and
the only price-related failure is the division-by-zero error at
`currentPrice = 0`. -/
theorem C5_no_validation (availableMargin leverage currentPrice stepSize : ℚ)
    (hcp : currentPrice ≠ 0) (hst : stepSize ≠ 0) :
    calculate_position_size availableMargin leverage currentPrice stepSize =
      .ok (quantizeDown (availableMargin * (leverage * 100) / currentPrice) stepSize) ∧
    calculate_position_size availableMargin leverage 0 stepSize =
      .error .divisionByZero := by
  constructor
  · simp [calculate_position_size, hcp, hst]
  · simp [calculate_position_size]

/-- Witness for C5 amended at a non-positive leverage input. -/
theorem C5_no_validation_witness :
    calculate_position_size 1000 (-1) 50000 (1 / 1000) =
      .ok (quantizeDown (1000 * ((-1 : ℚ) * 100) / 50000) (1 / 1000)) ∧
    calculate_position_size 1000 (-1) 0 (1 / 1000) = .error .divisionByZero :=
  C5_no_validation 1000 (-1) 50000 (1 / 1000) (by norm_num) (by norm_num)

/-- C9: two-run noninterference in the result of the direct
`private_client.get_account_v3()` call (line 72): two runs that differ
only in that value produce identical pipeline results, hence the same
position size, stop and take-profit prices, and order requests. -/
theorem C9_accountV3_noninterference (a1 a2 : String)
    (availableBalance tickSize stepSize lastPrice : ℚ)
    (symbol direction : String) (leverage tp_percent sl_percent : ℚ) :
    place_optimal_limit_order ⟨a1, availableBalance, tickSize, stepSize, lastPrice⟩
        symbol direction leverage tp_percent sl_percent =
      place_optimal_limit_order ⟨a2, availableBalance, tickSize, stepSize, lastPrice⟩
        symbol direction leverage tp_percent sl_percent := rfl

/-- C1 counterexample: when every attempt fails transiently, the final
failure raised by the wrapper is the same value whatever the last cause
was (here two runs whose causes differ still fail identically), so the
exhausted-retries failure does not carry the last cause — the source
raises `Exception(f"Failed to execute API call after {max_retries}
attempts")`, a message built from the attempt bound alone. -/
theorem C1_exhausted_carries_no_cause :
    (api_call_with_retry
        (fun _ => (CallOutcome.transient "connection reset" : CallOutcome Nat))).outcome =
      (api_call_with_retry
        (fun _ => (CallOutcome.transient "read timeout" : CallOutcome Nat))).outcome ∧
    (api_call_with_retry
        (fun _ => (CallOutcome.transient "connection reset" : CallOutcome Nat))).outcome =
      .exhausted := by
  constructor <;> rfl

/-- C1 amended: if the call fails transiently exactly `k < 5` times and
then succeeds, the wrapper returns the success and emits exactly `k`
warning events; if the call fails transiently on every attempt, the
wrapper makes exactly 5 attempts (emitting 5 warnings), sleeping
`0.5 * 2 ^ attempt` after each failed attempt — strictly increasing
waits — and then fails with the generic exhausted-retries error, which
does not carry the last cause. -/
theorem C1_retry_behavior {α : Type} (f : Nat → CallOutcome α) :
    (∀ k a, k < 5 → (∀ i, i < k → (f i).IsTransient) → f k = .ok a →
      (api_call_with_retry f).outcome = .ok a ∧
      (api_call_with_retry f).warnings.length = k) ∧
    ((∀ i, i < 5 → (f i).IsTransient) →
      (api_call_with_retry f).outcome = .exhausted ∧
      (api_call_with_retry f).warnings.length = 5 ∧
      (api_call_with_retry f).sleeps =
        [1/2 * 2^0, 1/2 * 2^1, 1/2 * 2^2, 1/2 * 2^3, 1/2 * 2^4] ∧
      (api_call_with_retry f).sleeps.Chain' (· < ·)) := by
  constructor
  · intro k a hk htr hok
    have hsplit := range_five_split k hk
    have h := retryGo_succeeds f (1/2) (List.range k)
      (List.drop (k + 1) (List.range 5)) k a
      (fun i hi => htr i (List.mem_range.mp hi)) hok
    rw [api_call_with_retry, hsplit]
    exact ⟨h.1, by rw [h.2, List.length_range]⟩
  · intro htr
    have h := retryGo_all_transient f (1/2) (List.range 5)
      (fun i hi => htr i (List.mem_range.mp hi))
    have hsl : (api_call_with_retry f).sleeps =
        [1/2 * 2^0, 1/2 * 2^1, 1/2 * 2^2, 1/2 * 2^3, 1/2 * 2^4] := by
      rw [api_call_with_retry, h.2.2]
      simp [List.range_succ]
    refine ⟨h.1, by rw [api_call_with_retry, h.2.1, List.length_range], hsl, ?_⟩
    rw [hsl]
    simp only [List.chain'_cons, List.chain'_singleton, and_true]
    norm_num

/-- Witness for C1 amended: a call failing transiently twice then
succeeding with `7` returns `7` with exactly 2 warnings. -/
theorem C1_retry_behavior_witness :
    (api_call_with_retry
        (fun i => if i < 2 then CallOutcome.transient "boom" else CallOutcome.ok 7)).outcome =
      .ok 7 ∧
    (api_call_with_retry
        (fun i => if i < 2 then CallOutcome.transient "boom" else CallOutcome.ok 7)).warnings.length = 2 :=
  (C1_retry_behavior _).1 2 7 (by norm_num)
    (fun i hi => Or.inr ⟨"boom", by simp [hi]⟩) (by simp)

/-- C4: for each direction the pipeline computes the bracket prices by
the Buy formulas `tp = p * (1 + tp% / 100)`, `sl = p * (1 - sl% / 100)`
(reversed for Sell) and quantizes both down to a multiple of `tickSize`
before using them as order prices: the three submitted prices are the
entry at `currentPrice` and the quantized stop and take-profit prices. -/
theorem C4_bracket_prices (env : Env) (symbol direction : String)
    (leverage tp_percent sl_percent : ℚ)
    (hcp : 0 < env.lastPrice) (hstep : 0 < env.stepSize) (htick : 0 < env.tickSize) :
    (pyLower direction = "buy" →
      (place_optimal_limit_order env symbol direction leverage tp_percent sl_percent).map
          (List.map OrderRequest.price) =
        .ok [env.lastPrice,
             quantizeDown (env.lastPrice * (1 - sl_percent / 100)) env.tickSize,
             quantizeDown (env.lastPrice * (1 + tp_percent / 100)) env.tickSize]) ∧
    (pyLower direction = "sell" →
      (place_optimal_limit_order env symbol direction leverage tp_percent sl_percent).map
          (List.map OrderRequest.price) =
        .ok [env.lastPrice,
             quantizeDown (env.lastPrice * (1 + sl_percent / 100)) env.tickSize,
             quantizeDown (env.lastPrice * (1 - tp_percent / 100)) env.tickSize]) := by
  constructor
  · intro hb
    simp [place_optimal_limit_order, calculate_position_size, hb,
      hcp.ne', hstep.ne', htick.ne', Except.map]
  · intro hs
    by_cases hb : pyLower direction = "buy"
    · rw [hb] at hs; exact absurd hs (by decide)
    · simp [place_optimal_limit_order, calculate_position_size, hb, hs,
        hcp.ne', hstep.ne', htick.ne', Except.map]

/-- Witness for C4 at the spec's scenario: Buy, `currentPrice = 50000`,
`tpPercent = 5`, `slPercent = 2`, `tickSize = 0.5` gives submitted prices
entry `50000`, stop `49000`, take-profit `52500`. -/
theorem C4_bracket_prices_witness :
    (place_optimal_limit_order ⟨"acct", 1000, 1/2, 1/1000, 50000⟩
        "BTC-USDT" "buy" 10 5 2).map (List.map OrderRequest.price) =
      .ok [50000, 49000, 52500] := by
  have h := (C4_bracket_prices ⟨"acct", 1000, 1/2, 1/1000, 50000⟩
    "BTC-USDT" "buy" 10 5 2 (by norm_num) (by norm_num) (by norm_num)).1 (by decide)
  rw [h]
  norm_num [quantizeDown, decDivInt]

/-- C7: direction parsing is case-insensitive — any string whose
lowercasing is "buy" ("sell") is accepted, the entry order's side being
the uppercased direction and the protective orders' side the opposite
side; any other direction string makes the pipeline fail with the
invalid-direction error and no order request is built. -/
theorem C7_direction_parsing (env : Env) (symbol direction : String)
    (leverage tp_percent sl_percent : ℚ)
    (hcp : env.lastPrice ≠ 0) (hstep : env.stepSize ≠ 0) (htick : env.tickSize ≠ 0) :
    (pyLower direction = "buy" →
      (place_optimal_limit_order env symbol direction leverage tp_percent sl_percent).map
          (List.map OrderRequest.side) = .ok [pyUpper direction, "SELL", "SELL"]) ∧
    (pyLower direction = "sell" →
      (place_optimal_limit_order env symbol direction leverage tp_percent sl_percent).map
          (List.map OrderRequest.side) = .ok [pyUpper direction, "BUY", "BUY"]) ∧
    (pyLower direction ≠ "buy" → pyLower direction ≠ "sell" →
      place_optimal_limit_order env symbol direction leverage tp_percent sl_percent =
        .error .invalidDirection) := by
  refine ⟨fun hb => ?_, fun hs => ?_, fun hnb hns => ?_⟩
  · simp [place_optimal_limit_order, calculate_position_size, hb,
      hcp, hstep, htick, Except.map]
  · by_cases hb : pyLower direction = "buy"
    · rw [hb] at hs; exact absurd hs (by decide)
    · simp [place_optimal_limit_order, calculate_position_size, hb, hs,
        hcp, hstep, htick, Except.map]
  · simp [place_optimal_limit_order, calculate_position_size, hnb, hns,
      hcp, hstep, htick]

/-- Witness for C7: mixed-case "SELL" is accepted and normalized (entry
side "SELL", protective sides "BUY"); "short" fails with the
invalid-direction error and zero submitted orders. -/
theorem C7_direction_parsing_witness :
    (place_optimal_limit_order ⟨"acct", 1000, 1/2, 1/1000, 50000⟩
        "BTC-USDT" "SELL" 10 5 2).map (List.map OrderRequest.side) =
      .ok ["SELL", "BUY", "BUY"] ∧
    place_optimal_limit_order ⟨"acct", 1000, 1/2, 1/1000, 50000⟩
        "BTC-USDT" "short" 10 5 2 = .error .invalidDirection := by
  constructor
  · have h := (C7_direction_parsing ⟨"acct", 1000, 1/2, 1/1000, 50000⟩
      "BTC-USDT" "SELL" 10 5 2 (by norm_num) (by norm_num) (by norm_num)).2.1 (by decide)
    rw [h]
    have hup : pyUpper "SELL" = "SELL" := by decide
    rw [hup]
  · exact (C7_direction_parsing ⟨"acct", 1000, 1/2, 1/1000, 50000⟩
      "BTC-USDT" "short" 10 5 2 (by norm_num) (by norm_num) (by norm_num)).2.2
      (by decide) (by decide)

/-- C10: any successful run submits exactly three orders; the stop and
take-profit orders each have `price = triggerPrice`, and those shared
values are the tick-quantized stop price and the tick-quantized
take-profit price of the run's direction; and all three orders carry the
same quantity, the computed position size
`quantizeDown (availableMargin * (leverage * 100) / currentPrice, stepSize)`
(zero included). -/
theorem C10_order_field_consistency (env : Env) (symbol direction : String)
    (leverage tp_percent sl_percent : ℚ) (orders : List OrderRequest)
    (h : place_optimal_limit_order env symbol direction leverage tp_percent sl_percent
      = .ok orders) :
    ∃ e s t : OrderRequest, orders = [e, s, t] ∧
      s.triggerPrice = some s.price ∧
      t.triggerPrice = some t.price ∧
      (pyLower direction = "buy" →
        s.price = quantizeDown (env.lastPrice * (1 - sl_percent / 100)) env.tickSize ∧
        t.price = quantizeDown (env.lastPrice * (1 + tp_percent / 100)) env.tickSize) ∧
      (pyLower direction = "sell" →
        s.price = quantizeDown (env.lastPrice * (1 + sl_percent / 100)) env.tickSize ∧
        t.price = quantizeDown (env.lastPrice * (1 - tp_percent / 100)) env.tickSize) ∧
      e.size = s.size ∧ s.size = t.size ∧
      e.size = quantizeDown (env.availableBalance * (leverage * 100) / env.lastPrice)
        env.stepSize := by
  cases hcalc : calculate_position_size env.availableBalance leverage env.lastPrice env.stepSize with
  | error e => simp [place_optimal_limit_order, hcalc] at h
  | ok ps =>
    have hps : ps = quantizeDown (env.availableBalance * (leverage * 100) / env.lastPrice)
        env.stepSize := by
      have hcp : env.lastPrice ≠ 0 := by
        intro h0
        simp [calculate_position_size, h0] at hcalc
      have hstep : env.stepSize ≠ 0 := by
        intro h0
        simp [calculate_position_size, h0] at hcalc
      simp [calculate_position_size, hcp, hstep] at hcalc
      exact hcalc.symm
    by_cases hb : pyLower direction = "buy"
    · by_cases htick : env.tickSize = 0
      · simp [place_optimal_limit_order, hcalc, if_pos hb, htick] at h
      · simp only [place_optimal_limit_order, hcalc, if_pos hb, if_neg htick] at h
        injection h with h
        subst h
        refine ⟨_, _, _, rfl, rfl, rfl, fun _ => ⟨rfl, rfl⟩, fun hs => ?_, rfl, rfl, hps⟩
        rw [hb] at hs
        exact absurd hs (by decide)
    · by_cases hs : pyLower direction = "sell"
      · by_cases htick : env.tickSize = 0
        · simp [place_optimal_limit_order, hcalc, if_neg hb, if_pos hs, htick] at h
        · simp only [place_optimal_limit_order, hcalc, if_neg hb, if_pos hs, if_neg htick] at h
          injection h with h
          subst h
          exact ⟨_, _, _, rfl, rfl, rfl, fun hb' => absurd hb' hb, fun _ => ⟨rfl, rfl⟩,
            rfl, rfl, hps⟩
      · simp [place_optimal_limit_order, hcalc, if_neg hb, if_neg hs] at h

/-- Witness for C10 at a run whose computed position size is 0
(`availableMargin = 0.00001`): three orders, stop and take-profit with
`price = triggerPrice` equal to the quantized stop price `49000` and
quantized take-profit price `52500`, and all quantities the zero size. -/
theorem C10_order_field_consistency_witness :
    ∃ orders, place_optimal_limit_order ⟨"acct", 1/100000, 1/2, 1/1000, 50000⟩
        "X" "buy" 10 5 2 = .ok orders ∧
      ∃ e s t : OrderRequest, orders = [e, s, t] ∧
        s.triggerPrice = some s.price ∧
        t.triggerPrice = some t.price ∧
        s.price = 49000 ∧ t.price = 52500 ∧
        e.size = s.size ∧ s.size = t.size ∧ e.size = 0 := by
  have hplace : place_optimal_limit_order ⟨"acct", 1/100000, 1/2, 1/1000, 50000⟩
      "X" "buy" 10 5 2 =
      .ok [⟨"X", "BUY", "MARKET", 0, 50000, "GOOD_TIL_CANCEL", false, false,
              none, none⟩,
           ⟨"X", "SELL", "STOP_MARKET", 0, 49000, "GOOD_TIL_CANCEL", true, true,
              some 49000, some "INDEX"⟩,
           ⟨"X", "SELL", "TAKE_PROFIT_MARKET", 0, 52500, "GOOD_TIL_CANCEL", true,
              true, some 52500, some "INDEX"⟩] := by
    have h1 : pyLower "buy" = "buy" := by decide
    have h2 : pyUpper "buy" = "BUY" := by decide
    simp only [place_optimal_limit_order, h1, h2, if_pos rfl]
    norm_num [calculate_position_size, quantizeDown, decDivInt]
  obtain ⟨e, s, t, h1, h2, h3, hbuy, hsell, h4, h5, h6⟩ :=
    C10_order_field_consistency _ "X" "buy" 10 5 2 _ hplace
  obtain ⟨hsp, htp⟩ := hbuy (by decide)
  refine ⟨_, hplace, e, s, t, h1, h2, h3, ?_, ?_, h4, h5, ?_⟩
  · rw [hsp]; norm_num [quantizeDown, decDivInt]
  · rw [htp]; norm_num [quantizeDown, decDivInt]
  · rw [h6]; norm_num [quantizeDown, decDivInt]

/-- C6 counterexample: a Buy plan at `currentPrice = 100`,
`tpPercent = 0.1`, `tickSize = 0.5` has raw take-profit `100.1`, which
quantizes down to `100` — the submitted take-profit trigger equals the
current price, so it is not strictly greater although `tpPercent > 0`. -/
theorem C6_quantized_tp_not_above_price :
    (place_optimal_limit_order ⟨"acct", 1000, 1/2, 1/1000, 100⟩
        "X" "buy" 10 (1/10) 1).map (List.map OrderRequest.triggerPrice) =
      .ok [none, some 99, some 100] ∧
    (0 : ℚ) < 1/10 ∧ ¬ (100 : ℚ) < 100 := by
  refine ⟨?_, by norm_num, by norm_num⟩
  have h1 : pyLower "buy" = "buy" := by decide
  simp only [place_optimal_limit_order, h1, if_pos rfl]
  norm_num [calculate_position_size, quantizeDown, decDivInt, Except.map]

/-- C6 amended: the downward-quantized prices that move against the trade
direction keep their strict inequality (Buy stop `< currentPrice`, Sell
take-profit `< currentPrice`); the prices that move with it satisfy the
strict inequality only before quantization — afterwards they are only
guaranteed to exceed `currentPrice - tickSize` and can land at or below
`currentPrice` (the source's downward bias flagged in the spec's §4.5). -/
theorem C6_price_inequalities (currentPrice tickSize tp_percent sl_percent : ℚ)
    (hcp : 0 < currentPrice) (htick : 0 < tickSize) :
    (0 < sl_percent →
      quantizeDown (currentPrice * (1 - sl_percent / 100)) tickSize < currentPrice) ∧
    (0 < tp_percent →
      currentPrice < currentPrice * (1 + tp_percent / 100) ∧
      currentPrice - tickSize <
        quantizeDown (currentPrice * (1 + tp_percent / 100)) tickSize) ∧
    (0 < tp_percent →
      quantizeDown (currentPrice * (1 - tp_percent / 100)) tickSize < currentPrice) ∧
    (0 < sl_percent →
      currentPrice < currentPrice * (1 + sl_percent / 100) ∧
      currentPrice - tickSize <
        quantizeDown (currentPrice * (1 + sl_percent / 100)) tickSize) := by
  have key_lt : ∀ p : ℚ, 0 < p → currentPrice * (1 - p / 100) < currentPrice := by
    intro p hp; nlinarith
  have key_gt : ∀ p : ℚ, 0 < p → currentPrice < currentPrice * (1 + p / 100) := by
    intro p hp; nlinarith
  have key_quant : ∀ p : ℚ, 0 < p →
      currentPrice - tickSize <
        quantizeDown (currentPrice * (1 + p / 100)) tickSize := by
    intro p hp
    have hraw : 0 ≤ currentPrice * (1 + p / 100) := by nlinarith
    have h1 := sub_lt_quantizeDown (currentPrice * (1 + p / 100)) tickSize hraw htick
    have h2 := key_gt p hp
    linarith
  exact ⟨fun h => quantizeDown_lt_of_lt _ _ _ htick hcp (key_lt _ h),
    fun h => ⟨key_gt _ h, key_quant _ h⟩,
    fun h => quantizeDown_lt_of_lt _ _ _ htick hcp (key_lt _ h),
    fun h => ⟨key_gt _ h, key_quant _ h⟩⟩

/-- Witness for C6 amended at `currentPrice = 50000`, `tickSize = 0.5`,
`tpPercent = 5`, `slPercent = 2`. -/
theorem C6_price_inequalities_witness :
    quantizeDown ((50000 : ℚ) * (1 - 2 / 100)) (1/2) < 50000 ∧
    (50000 : ℚ) - 1/2 < quantizeDown ((50000 : ℚ) * (1 + 5 / 100)) (1/2) := by
  have h := C6_price_inequalities 50000 (1/2) 5 2 (by norm_num) (by norm_num)
  exact ⟨h.1 (by norm_num), (h.2.1 (by norm_num)).2⟩

/-- C8 counterexample: a failing pipeline run (direction "short") is
caught by the top-level handler, which logs the error and falls through,
so the process terminates with exit status 0 — not a non-zero outcome. -/
theorem C8_nonzero_exit_refuted :
    place_optimal_limit_order ⟨"acct", 1000, 1/2, 1/1000, 50000⟩
        "X" "short" 10 5 2 = .error .invalidDirection ∧
    mainRun ⟨"acct", 1000, 1/2, 1/1000, 50000⟩ 6 "X" "short" 10 5 2 = (0, true) := by
  have h1 : pyLower "short" = "short" := by decide
  have hne1 : ("short" : String) ≠ "buy" := by decide
  have hne2 : ("short" : String) ≠ "sell" := by decide
  have hplace : place_optimal_limit_order ⟨"acct", 1000, 1/2, 1/1000, 50000⟩
      "X" "short" 10 5 2 = .error .invalidDirection := by
    simp only [place_optimal_limit_order, h1, if_neg hne1, if_neg hne2]
    norm_num [calculate_position_size]
  have h6 : ¬ ((6 : Nat) ≠ 6) := by norm_num
  exact ⟨hplace, by simp only [mainRun, if_neg h6, hplace]⟩

/-- C8 amended: every pipeline failure surfaces to the top-level run,
which logs the error ('true' in the second component) but terminates with
exit status 0; only a wrong argument count gives a non-zero exit. -/
theorem C8_failure_logged_zero_exit (env : Env) (symbol direction : String)
    (leverage tp_percent sl_percent : ℚ) (e : PyErr)
    (h : place_optimal_limit_order env symbol direction leverage tp_percent sl_percent
      = .error e) :
    mainRun env 6 symbol direction leverage tp_percent sl_percent = (0, true) ∧
    (∀ argc ≠ 6, mainRun env argc symbol direction leverage tp_percent sl_percent
      = (1, false)) := by
  constructor
  · simp [mainRun, h]
  · intro argc hargc
    simp [mainRun, hargc]

/-- Witness for C8 amended at a run failing with division by zero
(`lastPrice = 0`). -/
theorem C8_failure_logged_zero_exit_witness :
    mainRun ⟨"acct", 1000, 1/2, 1/1000, 0⟩ 6 "X" "buy" 10 5 2 = (0, true) ∧
    (∀ argc ≠ 6, mainRun ⟨"acct", 1000, 1/2, 1/1000, 0⟩ argc "X" "buy" 10 5 2
      = (1, false)) :=
  C8_failure_logged_zero_exit ⟨"acct", 1000, 1/2, 1/1000, 0⟩ "X" "buy" 10 5 2
    .divisionByZero (by simp [place_optimal_limit_order, calculate_position_size])
